import Mathlib

/-!
Verification development for the realtime session orchestration layer of the
pitext_travel repository: a shallow embedding of
`pitext_travel/api/realtime/session_manager.py` (RealtimeSession, SessionManager)
and `pitext_travel/api/realtime/client.py` (RealtimeClient), together with
theorems settling the stated properties of those components.

Modelling conventions:
- `datetime.now()` timestamps are abstract `Nat` instants, passed explicitly as a
  `now` argument to each operation that reads the clock.  Python computes
  `datetime.now() - timedelta(seconds=t)`, which can be arbitrarily early; with
  `Nat` timestamps the truncated subtraction `now - t` classifies exactly the
  same sessions as expired, because no `last_activity` is below zero.
- The registry `self.sessions` is a Python dict (insertion ordered, unique
  keys); it is embedded as an association list in insertion order, and the
  well-formedness predicate `SessionManager.WF` records that keys are unique,
  as they are for any state produced by dict mutation.
- `self.ip_session_count` is a `defaultdict(int)`; reading a missing key inserts
  a zero entry, which `touchKey` reproduces.
- Lock acquisition, greenthread scheduling and wall-clock timeouts are outside
  the embedding; operations are modelled as atomic state transitions, matching
  the single coarse lock of the source.  Where the source consults an external
  outcome (success of component construction, arrival of the open confirmation)
  the embedding takes that outcome as an explicit argument.
-/

/-! ## Association-list helpers (Python dict in insertion order) -/

def lookupKey {α : Type} : List (String × α) → String → Option α
  | [], _ => none
  | (k, v) :: t, key => if k = key then some v else lookupKey t key

/-- Replace the value stored at a key, leaving other entries alone (dict item
assignment to an existing key / in-place mutation of the stored object). -/
def setKey {α : Type} : List (String × α) → String → α → List (String × α)
  | [], _, _ => []
  | (k, w) :: t, key, v =>
    if k = key then (key, v) :: setKey t key v else (k, w) :: setKey t key v

/-- Delete a key (`del d[k]`). -/
def dropKey {α : Type} : List (String × α) → String → List (String × α)
  | [], _ => []
  | (k, v) :: t, key =>
    if k = key then dropKey t key else (k, v) :: dropKey t key

/-- Reading a missing key on a `defaultdict(int)` inserts a zero entry. -/
def touchKey (l : List (String × Nat)) (key : String) : List (String × Nat) :=
  if (lookupKey l key).isSome then l else l ++ [(key, 0)]

/-- The value a `defaultdict(int)` yields for a key. -/
def getCount (l : List (String × Nat)) (key : String) : Nat :=
  (lookupKey l key).getD 0

/-- Python `max(xs, key=f)` on a nonempty list: strictly greater keys replace
the running maximum, so ties keep the earliest element. -/
def pyMaxGo {α : Type} (f : α → Nat) (acc : α) : List α → α
  | [] => acc
  | x :: t => pyMaxGo f (if f acc < f x then x else acc) t

def pyMax? {α : Type} (f : α → Nat) : List α → Option α
  | [] => none
  | x :: t => some (pyMaxGo f x t)

/-! ## Data model: RealtimeSession (session_manager.py lines 20-102)

The owned RealtimeClient is summarised inside the session record by presence
(`hasClient`, None when construction failed) and its connection flag
(`clientConnected`, mutated by connect/disconnect); the AudioHandler by
presence alone.  The full RealtimeClient state machine is embedded separately
below for the client-level properties. -/

structure RealtimeSession where
  session_id : String
  user_ip : String
  flask_session_id : String
  created_at : Nat
  last_activity : Nat
  connected_at : Option Nat
  is_active : Bool
  hasClient : Bool
  clientConnected : Bool
  hasAudio : Bool
  welcome_sent : Bool
  audio_bytes_sent : Nat
  audio_bytes_received : Nat
  message_count : Nat
  function_calls : Nat
  deriving Repr, DecidableEq

/-- RealtimeSession.__init__: timestamps stamped with the current time, state
inactive, counters zero; client and audio handler construction may each fail
(timeout or exception), in which case the corresponding component is None and
the session is still produced. -/
def RealtimeSession.mk0 (session_id user_ip flask_session_id : String)
    (now : Nat) (clientOk audioOk : Bool) : RealtimeSession :=
  { session_id := session_id
    user_ip := user_ip
    flask_session_id := flask_session_id
    created_at := now
    last_activity := now
    connected_at := none
    is_active := false
    hasClient := clientOk
    clientConnected := false
    hasAudio := audioOk
    welcome_sent := false
    audio_bytes_sent := 0
    audio_bytes_received := 0
    message_count := 0
    function_calls := 0 }

/-! ## Data model: SessionManager (session_manager.py lines 105-490) -/

structure ManagerConfig where
  rate_limit_per_ip : Nat
  max_concurrent_sessions : Nat
  session_timeout_seconds : Nat
  deriving Repr, DecidableEq

structure SessionManager where
  config : ManagerConfig
  sessions : List (String × RealtimeSession)
  ip_session_count : List (String × Nat)
  deriving Repr, DecidableEq

/-- Keys of the registry dict and of the per-IP counter dict are unique, as
they are in any state reachable through dict operations. -/
def SessionManager.WF (m : SessionManager) : Prop :=
  (m.sessions.map Prod.fst).Nodup ∧ (m.ip_session_count.map Prod.fst).Nodup

instance (m : SessionManager) : Decidable m.WF := by
  unfold SessionManager.WF; infer_instance

/-- Sessions whose flask_session_id matches, in registry (insertion) order:
the list comprehension at session_manager.py lines 139-142. -/
def SessionManager.matchingSessions (m : SessionManager)
    (flask_session_id : String) : List RealtimeSession :=
  m.sessions.filterMap
    (fun p => if p.2.flask_session_id = flask_session_id then some p.2 else none)

/-- Count of registered sessions with is_active set: line 155. -/
def activeCountL (l : List (String × RealtimeSession)) : Nat :=
  (l.filter (fun p => p.2.is_active)).length

def SessionManager.activeCount (m : SessionManager) : Nat :=
  activeCountL m.sessions

/-- SessionManager.create_session (lines 121-204).  `now` is the clock,
`fresh_id` the generated `rts_` token, `clientOk`/`audioOk` whether the owned
component constructions succeed.  Lock-timeout and whole-construction-timeout
failure paths return None with the state unchanged and are not modelled
separately. -/
def SessionManager.create_session (m : SessionManager) (now : Nat)
    (user_ip flask_session_id fresh_id : String) (clientOk audioOk : Bool) :
    SessionManager × Option RealtimeSession :=
  match pyMax? (fun s => s.created_at) (m.matchingSessions flask_session_id) with
  | some existing => (m, some existing)
  | none =>
    let cnt := getCount m.ip_session_count user_ip
    let m1 : SessionManager :=
      { m with ip_session_count := touchKey m.ip_session_count user_ip }
    if m.config.rate_limit_per_ip ≤ cnt then
      (m1, none)
    else if m.config.max_concurrent_sessions ≤ m.activeCount then
      (m1, none)
    else
      let sess := RealtimeSession.mk0 fresh_id user_ip flask_session_id now
        clientOk audioOk
      ({ m1 with
          sessions := m1.sessions ++ [(fresh_id, sess)]
          ip_session_count := setKey m1.ip_session_count user_ip (cnt + 1) },
        some sess)

/-- SessionManager.get_session (lines 206-219): a successful lookup stamps
last_activity with the current time and returns the (updated) session. -/
def SessionManager.get_session (m : SessionManager) (now : Nat)
    (session_id : String) : SessionManager × Option RealtimeSession :=
  match lookupKey m.sessions session_id with
  | none => (m, none)
  | some s =>
    let s1 := { s with last_activity := now }
    ({ m with sessions := setKey m.sessions session_id s1 }, some s1)

/-- SessionManager.deactivate_session (lines 331-364): absent id is a no-op;
otherwise disconnect the client (if any), clear is_active, and decrement the
per-IP counter with a floor of zero (`max(0, c - 1)`; Nat subtraction).  The
reason argument is only logged. -/
def SessionManager.deactivate_session (m : SessionManager)
    (session_id : String) (_reason : String) : SessionManager :=
  match lookupKey m.sessions session_id with
  | none => m
  | some s =>
    let s1 := { s with
      clientConnected := if s.hasClient then false else s.clientConnected
      is_active := false }
    let counts :=
      if (lookupKey m.ip_session_count s.user_ip).isSome then
        setKey m.ip_session_count s.user_ip
          (getCount m.ip_session_count s.user_ip - 1)
      else m.ip_session_count
    { m with
        sessions := setKey m.sessions session_id s1
        ip_session_count := counts }

/-- SessionManager.remove_session (lines 366-383): deactivate first if still
active, then erase the registry entry. -/
def SessionManager.remove_session (m : SessionManager) (session_id : String) :
    SessionManager :=
  match lookupKey m.sessions session_id with
  | none => m
  | some s =>
    let m1 := if s.is_active then m.deactivate_session session_id "removal" else m
    { m1 with sessions := dropKey m1.sessions session_id }

/-- SessionManager.activate_session (lines 263-329).  Looks the session up
(stamping last_activity), rejects a missing session or one whose client or
audio handler is absent, then awaits client.connect() whose outcome is given
as `connectResult`: `some true` success, `some false` refusal, `none` the
20-second eventlet timeout branch, which disconnects the partial connection. -/
def SessionManager.activate_session (m : SessionManager) (now : Nat)
    (session_id : String) (connectResult : Option Bool) :
    SessionManager × Bool :=
  match m.get_session now session_id with
  | (m1, none) => (m1, false)
  | (m1, some s) =>
    if ¬ s.hasClient then (m1, false)
    else if ¬ s.hasAudio then (m1, false)
    else
      match connectResult with
      | some true =>
        let s1 := { s with is_active := true, connected_at := some now,
                           clientConnected := true }
        ({ m1 with sessions := setKey m1.sessions session_id s1 }, true)
      | some false => (m1, false)
      | none =>
        let s1 := { s with clientConnected := false }
        ({ m1 with sessions := setKey m1.sessions session_id s1 }, false)

/-- SessionManager._cleanup_expired_sessions (lines 472-490): collect the ids
whose last_activity is strictly before `now - session_timeout_seconds`, then
deactivate (reason timeout) and remove each. -/
def SessionManager.cleanup_expired_sessions (m : SessionManager) (now : Nat) :
    SessionManager :=
  let cutoff := now - m.config.session_timeout_seconds
  let expired := m.sessions.filterMap
    (fun p => if p.2.last_activity < cutoff then some p.1 else none)
  expired.foldl
    (fun acc sid => (acc.deactivate_session sid "timeout").remove_session sid) m

/-! ## Data model: RealtimeClient (client.py lines 22-547)

The wire-client state machine.  The WebSocketApp and the background greenthread
are summarised by presence flags; the socket by its connected flag; the list of
events pushed through the socket by the trace `sent` of their type tags (the
payloads play no role in the properties below).  `get_openai_api_key` and
`get_realtime_config` live in `pitext_travel/api/config`, outside the embedded
sources; their outcomes (a raised error, or a value) enter `RealtimeClient.init`
as explicit `Except` arguments. -/

structure RealtimeConfig where
  model : String
  voice : String
  instructions : String
  deriving Repr, DecidableEq

/-- One inbound wire message after JSON parsing: the fields of the JSON object
that the dispatch handlers read.  `sessionId` is the value of
`event.get("session", \x7b\x7d).get("id")`, `hasSession` whether the "session"
key is present (`event["session"]` raises when it is not), `itemId` the value
of `event.get("item", \x7b\x7d).get("id")`, `deltaB64Ok` whether the base64
decode of the audio delta succeeds. -/
structure EventObj where
  etype : Option String
  hasSession : Bool
  sessionId : Option String
  itemId : Option String
  deltaB64Ok : Bool
  deriving Repr, DecidableEq

/-- A raw inbound transport message: either text that fails JSON parsing, or a
parsed JSON object. -/
inductive RawMsg where
  | malformed (text : String)
  | obj (e : EventObj)
  deriving Repr, DecidableEq

/-- Which callback hook an inbound message invoked. -/
inductive CbCall where
  | sessionUpdate
  | speechStarted
  | speechStopped
  | responseStarted
  | responseDone
  | transcriptDelta
  | transcriptDone
  | audioChunk
  | functionCall
  | errorEvent
  deriving Repr, DecidableEq

/-- Which callback hooks are registered (the source assigns them
post-construction; None means not registered). -/
structure Callbacks where
  on_transcript : Bool
  on_audio_chunk : Bool
  on_function_call : Bool
  on_error : Bool
  on_session_update : Bool
  on_speech_started : Bool
  on_speech_stopped : Bool
  on_response_started : Bool
  on_response_done : Bool
  deriving Repr, DecidableEq

structure RealtimeClient where
  session_id : String
  api_key : Option String
  config : RealtimeConfig
  is_connected : Bool
  ws_app : Bool
  sock_connected : Bool
  greenthread : Bool
  conversation_id : Option String
  current_item_id : Option String
  is_model_speaking : Bool
  incoming_queue : List EventObj
  sent : List String
  deriving Repr, DecidableEq

/-- The state RealtimeClient.__init__ leaves behind when it returns:
unconnected, no conversation tracking, empty queues.  No check of any kind is
applied to the api_key here (lines 31-96). -/
def RealtimeClient.mk0 (session_id : String) (api_key : Option String)
    (config : RealtimeConfig) : RealtimeClient :=
  { session_id := session_id
    api_key := api_key
    config := config
    is_connected := false
    ws_app := false
    sock_connected := false
    greenthread := false
    conversation_id := none
    current_item_id := none
    is_model_speaking := false
    incoming_queue := []
    sent := [] }

/-- RealtimeClient.__init__ (lines 31-96): the credential lookup and the
config retrieval each either raise (propagated) or yield a value; any yielded
credential, including None or a malformed string, is stored as is. -/
def RealtimeClient.init (session_id : String)
    (keyRes : Except String (Option String))
    (cfgRes : Except String RealtimeConfig) : Except String RealtimeClient :=
  match keyRes with
  | Except.error e => Except.error e
  | Except.ok k =>
    match cfgRes with
    | Except.error e => Except.error e
    | Except.ok c => Except.ok (RealtimeClient.mk0 session_id k c)

/-- Python truthiness of the stored api_key (`not self.api_key`): None and the
empty string are falsy. -/
def keyTruthy : Option String → Bool
  | none => false
  | some s => ¬ (s = "")

/-- The cheap credential format check connect() applies:
`api_key.startswith("sk-")`, phrased over the character list. -/
def startsWithSk (s : String) : Bool := s.data.take 3 = ['s', 'k', '-']

/-- RealtimeClient._send_event (lines 189-211): dropped with a warning unless
connected with a live WebSocketApp whose socket is connected; otherwise the
serialized event goes through the socket (its type tag is recorded). -/
def RealtimeClient.sendEvent (c : RealtimeClient) (tag : String) :
    RealtimeClient :=
  if ¬ c.is_connected ∨ ¬ c.ws_app then c
  else if ¬ c.sock_connected then c
  else { c with sent := c.sent ++ [tag] }

/-- RealtimeClient._on_open (lines 213-258): mark connected, signal the waiter,
then send the initial session.update configuration patch; a failure inside the
patch never retracts the connection. -/
def RealtimeClient.onOpen (c : RealtimeClient) : RealtimeClient :=
  RealtimeClient.sendEvent
    { c with is_connected := true, sock_connected := true } "session.update"

/-- RealtimeClient.disconnect (lines 174-187): drop the WebSocketApp (clearing
is_connected) if present, and kill the greenthread if present. -/
def RealtimeClient.disconnect (c : RealtimeClient) : RealtimeClient :=
  let c1 := if c.ws_app then
    { c with ws_app := false, sock_connected := false, is_connected := false }
  else c
  { c1 with greenthread := false }

/-- RealtimeClient.connect (lines 98-172): success immediately when already
connected; failure when the stored api_key is falsy or lacks the "sk-" leading
pattern; otherwise the WebSocketApp and its greenthread are started and the
caller waits (bounded by 30s) for the open confirmation.  `openOk` says whether
the confirmation arrived during the wait; when it did, _on_open has run and the
call returns is_connected.  The wall-clock bound itself, and the
eventlet-dependent timed-out-wait branch, are outside the embedding. -/
def RealtimeClient.connect (c : RealtimeClient) (openOk : Bool) :
    RealtimeClient × Bool :=
  if c.is_connected then (c, true)
  else if ¬ keyTruthy c.api_key then (c, false)
  else if ¬ startsWithSk (c.api_key.getD "") then (c, false)
  else
    let c1 := { c with ws_app := true, greenthread := true }
    if openOk then
      let c2 := RealtimeClient.onOpen c1
      (c2, c2.is_connected)
    else (c1, false)

/-- RealtimeClient.interrupt (lines 456-459): send response.cancel only while
is_model_speaking. -/
def RealtimeClient.interrupt (c : RealtimeClient) : RealtimeClient :=
  if c.is_model_speaking then RealtimeClient.sendEvent c "response.cancel" else c

/-- The inbound type tags the dispatch match recognizes (every case of the
match statement at lines 273-315 other than the default). -/
def recognizedType (t : Option String) : Prop :=
  t = some "session.created" ∨ t = some "session.updated" ∨
  t = some "input_audio_buffer.speech_started" ∨
  t = some "input_audio_buffer.speech_stopped" ∨
  t = some "conversation.item.created" ∨
  t = some "response.created" ∨ t = some "response.done" ∨
  t = some "response.cancelled" ∨
  t = some "response.audio_transcript.delta" ∨
  t = some "response.audio_transcript.done" ∨
  t = some "response.audio.delta" ∨
  t = some "response.function_call_arguments.done" ∨
  t = some "error"

instance (t : Option String) : Decidable (recognizedType t) := by
  unfold recognizedType; infer_instance

/-- The dispatch match on the parsed message (lines 273-315 and the handlers at
lines 346-422), after the message has been appended to incoming_queue.  The
result is the updated state and the callback invocations it performed, `none`
when a handler raises (only `event["session"]` with a registered
session-update callback and a missing "session" key can).  Handlers guard each
callback on its registration; the audio handler additionally swallows a failed
base64 decode. -/
def RealtimeClient.dispatchEvent (cb : Callbacks) (s0 : RealtimeClient)
    (e : EventObj) : Option (RealtimeClient × List CbCall) :=
  if e.etype = some "session.created" then
    let s1 := { s0 with conversation_id := e.sessionId }
    if cb.on_session_update then
      if e.hasSession then some (s1, [CbCall.sessionUpdate]) else none
    else some (s1, [])
  else if e.etype = some "session.updated" then
    if cb.on_session_update then
      if e.hasSession then some (s0, [CbCall.sessionUpdate]) else none
    else some (s0, [])
  else if e.etype = some "input_audio_buffer.speech_started" then
    some (s0, if cb.on_speech_started then [CbCall.speechStarted] else [])
  else if e.etype = some "input_audio_buffer.speech_stopped" then
    some (s0, if cb.on_speech_stopped then [CbCall.speechStopped] else [])
  else if e.etype = some "conversation.item.created" then
    some ({ s0 with current_item_id := e.itemId }, [])
  else if e.etype = some "response.created" then
    some ({ s0 with is_model_speaking := true },
      if cb.on_response_started then [CbCall.responseStarted] else [])
  else if e.etype = some "response.done" then
    some ({ s0 with is_model_speaking := false },
      if cb.on_response_done then [CbCall.responseDone] else [])
  else if e.etype = some "response.cancelled" then
    some ({ s0 with is_model_speaking := false },
      if cb.on_response_done then [CbCall.responseDone] else [])
  else if e.etype = some "response.audio_transcript.delta" then
    some (s0, if cb.on_transcript then [CbCall.transcriptDelta] else [])
  else if e.etype = some "response.audio_transcript.done" then
    some (s0, if cb.on_transcript then [CbCall.transcriptDone] else [])
  else if e.etype = some "response.audio.delta" then
    some (s0, if cb.on_audio_chunk then
      (if e.deltaB64Ok then [CbCall.audioChunk] else []) else [])
  else if e.etype = some "response.function_call_arguments.done" then
    some (s0, if cb.on_function_call then [CbCall.functionCall] else [])
  else if e.etype = some "error" then
    some (s0, if cb.on_error then [CbCall.errorEvent] else [])
  else
    some (s0, [])

/-- RealtimeClient._on_message (lines 260-315): a message that fails JSON
parsing is logged and dropped before any state is touched; a parsed message is
appended to incoming_queue and dispatched. -/
def RealtimeClient.onMessage (cb : Callbacks) (c : RealtimeClient) :
    RawMsg → Option (RealtimeClient × List CbCall)
  | RawMsg.malformed _ => some (c, [])
  | RawMsg.obj e =>
    RealtimeClient.dispatchEvent cb
      { c with incoming_queue := c.incoming_queue ++ [e] } e

/-- Strictly sequential dispatch of a list of inbound messages, in wire order,
accumulating the callback invocations; `none` once a handler raises (the
exception propagates out of the read loop). -/
def RealtimeClient.processMessages (cb : Callbacks) (c : RealtimeClient) :
    List RawMsg → Option (RealtimeClient × List CbCall)
  | [] => some (c, [])
  | msg :: rest =>
    match RealtimeClient.onMessage cb c msg with
    | none => none
    | some (c1, calls) =>
      match RealtimeClient.processMessages cb c1 rest with
      | none => none
      | some (c2, calls2) => some (c2, calls ++ calls2)

/-! ## Concrete instances used in witnesses and counterexamples -/

def cfg0 : ManagerConfig := ⟨2, 5, 300⟩

def sessA : RealtimeSession := RealtimeSession.mk0 "rts_a" "1.2.3.4" "keyA" 10 true true

def mgr1 : SessionManager := ⟨cfg0, [("rts_a", sessA)], [("1.2.3.4", 1)]⟩

def cfgIp : ManagerConfig := ⟨1, 5, 300⟩

def mgr2 : SessionManager := ⟨cfgIp, [], []⟩

/-- The state after create_session("1.2.3.4", "keyA") on an empty manager whose
per-IP limit is 1. -/
def mgr2a : SessionManager :=
  (mgr2.create_session 0 "1.2.3.4" "keyA" "rts_a2" true true).1

def cfgG : ManagerConfig := ⟨10, 1, 300⟩

/-- An activated session (the state activate_session leaves behind). -/
def sessG : RealtimeSession :=
  { RealtimeSession.mk0 "rts_g" "5.5.5.5" "keyG" 0 true true with
      is_active := true, clientConnected := true, connected_at := some 1 }

/-- A manager at its global limit of one active session. -/
def mgrG : SessionManager := ⟨cfgG, [("rts_g", sessG)], [("5.5.5.5", 1)]⟩

def sessC : RealtimeSession := RealtimeSession.mk0 "rts_c" "9.9.9.9" "keyC" 3 true true

/-- A manager holding one never-activated (inactive) session whose IP counter
is 1, as create_session leaves it. -/
def mgr3 : SessionManager := ⟨cfg0, [("rts_c", sessC)], [("9.9.9.9", 1)]⟩

def sessOld : RealtimeSession := RealtimeSession.mk0 "rts_old" "1.1.1.1" "keyOld" 0 true true

def sessNew : RealtimeSession := RealtimeSession.mk0 "rts_new" "1.1.1.1" "keyNew" 950 true true

def mgr6 : SessionManager :=
  ⟨⟨5, 5, 100⟩, [("rts_old", sessOld), ("rts_new", sessNew)], [("1.1.1.1", 2)]⟩

/-- A session whose RealtimeClient construction failed (client is None). -/
def sessD : RealtimeSession := RealtimeSession.mk0 "rts_d" "7.7.7.7" "keyD" 5 false true

def mgr4 : SessionManager := ⟨cfg0, [("rts_d", sessD)], [("7.7.7.7", 1)]⟩

def cfgR : RealtimeConfig :=
  ⟨"gpt-4o-realtime-preview", "alloy", "You are a travel assistant."⟩

/-- No callback hooks registered. -/
def cb0 : Callbacks := ⟨false, false, false, false, false, false, false, false, false⟩

/-- Every callback hook registered. -/
def cbAll : Callbacks := ⟨true, true, true, true, true, true, true, true, true⟩

def respCreatedEvt : EventObj := ⟨some "response.created", false, none, none, true⟩

def unknownEvt : EventObj := ⟨some "weird.type", false, none, none, true⟩

def clientA : RealtimeClient := RealtimeClient.mk0 "rts_x" (some "sk-test123") cfgR

/-- clientA after a successful connect (open confirmation arrived). -/
def clientB : RealtimeClient := (clientA.connect true).1

/-- clientB after dispatching an inbound response.created event. -/
def clientC : RealtimeClient :=
  match RealtimeClient.onMessage cb0 clientB (RawMsg.obj respCreatedEvt) with
  | some (c, _) => c
  | none => clientB

/-- clientC after disconnect: the transport is gone but is_model_speaking is
still set (neither disconnect nor _on_close clears it). -/
def clientD : RealtimeClient := clientC.disconnect

/-- A client whose stored credential is the empty string. -/
def clientBad : RealtimeClient := RealtimeClient.mk0 "rts_z" (some "") cfgR

/-! ## Lemmas about the dict embedding -/

theorem lookupKey_eq_none {α : Type} (l : List (String × α)) (key : String) :
    lookupKey l key = none ↔ ∀ p ∈ l, p.1 ≠ key := by
  induction l with
  | nil => simp [lookupKey]
  | cons p t ih =>
    obtain ⟨k, v⟩ := p
    by_cases h : k = key <;> simp [lookupKey, h, ih]

theorem lookupKey_mem {α : Type} {l : List (String × α)} {key : String}
    {v : α} (h : lookupKey l key = some v) : (key, v) ∈ l := by
  induction l with
  | nil => simp [lookupKey] at h
  | cons p t ih =>
    obtain ⟨k, w⟩ := p
    by_cases hk : k = key
    · subst hk
      simp [lookupKey] at h
      simp [h]
    · simp only [lookupKey, hk, if_false] at h
      exact List.mem_cons_of_mem _ (ih h)

theorem mem_lookupKey {α : Type} {l : List (String × α)} {key : String}
    {v : α} (hnd : (l.map Prod.fst).Nodup) (h : (key, v) ∈ l) :
    lookupKey l key = some v := by
  induction l with
  | nil => simp at h
  | cons p t ih =>
    obtain ⟨k, w⟩ := p
    simp only [List.map_cons, List.nodup_cons] at hnd
    rcases List.mem_cons.mp h with h1 | h1
    · injection h1 with hk hv
      subst hk; subst hv
      simp [lookupKey]
    · have hk : k ≠ key := by
        intro hkk
        exact hnd.1 (hkk ▸ (List.mem_map.mpr ⟨(key, v), h1, hkk ▸ rfl⟩))
      simp [lookupKey, hk, ih hnd.2 h1]

theorem nodup_value_unique {α : Type} {l : List (String × α)} {key : String}
    {v w : α} (hnd : (l.map Prod.fst).Nodup) (h1 : (key, v) ∈ l)
    (h2 : (key, w) ∈ l) : v = w := by
  have e1 := mem_lookupKey hnd h1
  have e2 := mem_lookupKey hnd h2
  rw [e1] at e2
  exact Option.some.inj e2

theorem keys_setKey {α : Type} (l : List (String × α)) (key : String) (v : α) :
    (setKey l key v).map Prod.fst = l.map Prod.fst := by
  induction l with
  | nil => rfl
  | cons p t ih =>
    obtain ⟨k, w⟩ := p
    by_cases h : k = key <;> simp [setKey, h, ih]

theorem lookupKey_setKey_self {α : Type} {l : List (String × α)} {key : String}
    (h : (lookupKey l key).isSome) (w : α) :
    lookupKey (setKey l key w) key = some w := by
  induction l with
  | nil => simp [lookupKey] at h
  | cons p t ih =>
    obtain ⟨k, v0⟩ := p
    by_cases hk : k = key
    · simp [setKey, hk, lookupKey]
    · simp only [lookupKey, hk, if_false] at h
      simp [setKey, hk, lookupKey, ih h]

theorem lookupKey_setKey_ne {α : Type} (l : List (String × α))
    {key key2 : String} (h : key ≠ key2) (w : α) :
    lookupKey (setKey l key w) key2 = lookupKey l key2 := by
  induction l with
  | nil => rfl
  | cons p t ih =>
    obtain ⟨k, v0⟩ := p
    by_cases hk : k = key
    · subst hk
      simp [setKey, lookupKey, h, ih]
    · by_cases hk2 : k = key2
      · subst hk2
        simp [setKey, hk, lookupKey, ih]
      · simp [setKey, hk, lookupKey, hk2, ih]

theorem setKey_of_lookup_none {α : Type} {l : List (String × α)} {key : String}
    (h : lookupKey l key = none) (v : α) : setKey l key v = l := by
  induction l with
  | nil => rfl
  | cons p t ih =>
    obtain ⟨k, w⟩ := p
    by_cases hk : k = key
    · simp [lookupKey, hk] at h
    · simp only [lookupKey, hk, if_false] at h
      simp [setKey, hk, ih h]

theorem setKey_self_of_lookup {α : Type} {l : List (String × α)} {key : String}
    {v : α} (hnd : (l.map Prod.fst).Nodup) (h : lookupKey l key = some v) :
    setKey l key v = l := by
  induction l with
  | nil => rfl
  | cons p t ih =>
    obtain ⟨k, w⟩ := p
    simp only [List.map_cons, List.nodup_cons] at hnd
    by_cases hk : k = key
    · subst hk
      simp [lookupKey] at h
      have ht : lookupKey t k = none := by
        rw [lookupKey_eq_none]
        intro p hp hpk
        exact hnd.1 (List.mem_map.mpr ⟨p, hp, hpk⟩)
      simp [setKey, h, setKey_of_lookup_none ht]
    · simp only [lookupKey, hk, if_false] at h
      simp [setKey, hk, ih hnd.2 h]

theorem lookupKey_dropKey_self {α : Type} (l : List (String × α))
    (key : String) : lookupKey (dropKey l key) key = none := by
  induction l with
  | nil => rfl
  | cons p t ih =>
    obtain ⟨k, v⟩ := p
    by_cases hk : k = key <;> simp [dropKey, hk, lookupKey, ih]

theorem lookupKey_dropKey_ne {α : Type} (l : List (String × α))
    {key key2 : String} (h : key ≠ key2) :
    lookupKey (dropKey l key) key2 = lookupKey l key2 := by
  induction l with
  | nil => rfl
  | cons p t ih =>
    obtain ⟨k, v⟩ := p
    by_cases hk : k = key
    · subst hk
      simp [dropKey, lookupKey, h, ih]
    · by_cases hk2 : k = key2
      · subst hk2
        simp [dropKey, hk, lookupKey, ih]
      · simp [dropKey, hk, lookupKey, hk2, ih]

theorem lookupKey_append_of_some {α : Type} {l1 : List (String × α)}
    {key : String} {v : α} (h : lookupKey l1 key = some v)
    (l2 : List (String × α)) : lookupKey (l1 ++ l2) key = some v := by
  induction l1 with
  | nil => simp [lookupKey] at h
  | cons p t ih =>
    obtain ⟨k, w⟩ := p
    by_cases hk : k = key
    · simp only [lookupKey, if_pos hk] at h ⊢
      exact h
    · simp only [lookupKey, hk, if_false] at h ⊢
      exact ih h

theorem lookupKey_append_of_none {α : Type} {l1 : List (String × α)}
    {key : String} (h : lookupKey l1 key = none) (l2 : List (String × α)) :
    lookupKey (l1 ++ l2) key = lookupKey l2 key := by
  induction l1 with
  | nil => simp
  | cons p t ih =>
    obtain ⟨k, w⟩ := p
    by_cases hk : k = key
    · simp [lookupKey, hk] at h
    · simp only [lookupKey, hk, if_false] at h
      simp only [List.cons_append, lookupKey, hk, if_false]
      exact ih h

theorem getCount_touchKey (l : List (String × Nat)) (key key2 : String) :
    getCount (touchKey l key) key2 = getCount l key2 := by
  unfold touchKey
  by_cases h : (lookupKey l key).isSome
  · simp [h]
  · have hn : lookupKey l key = none := by
      cases hl : lookupKey l key
      · rfl
      · simp [hl] at h
    simp only [h, if_false]
    by_cases hk : key = key2
    · subst hk
      simp [getCount, lookupKey_append_of_none hn, lookupKey, hn]
    · unfold getCount
      cases hl : lookupKey l key2 with
      | none => simp [lookupKey_append_of_none hl, lookupKey, hk]
      | some v => simp [lookupKey_append_of_some hl]

theorem touchKey_isSome (l : List (String × Nat)) (key : String) :
    (lookupKey (touchKey l key) key).isSome := by
  unfold touchKey
  by_cases h : (lookupKey l key).isSome
  · simp [h]
  · have hn : lookupKey l key = none := by
      cases hl : lookupKey l key
      · rfl
      · simp [hl] at h
    simp [h, lookupKey_append_of_none hn, lookupKey]

/-! ## Lemmas about the Python max -/

theorem pyMaxGo_mem {α : Type} (f : α → Nat) (acc : α) (l : List α) :
    pyMaxGo f acc l = acc ∨ pyMaxGo f acc l ∈ l := by
  induction l generalizing acc with
  | nil => simp [pyMaxGo]
  | cons x t ih =>
    simp only [pyMaxGo]
    by_cases h : f acc < f x
    · rw [if_pos h]
      rcases ih x with h1 | h1 <;> simp [h1]
    · rw [if_neg h]
      rcases ih acc with h1 | h1 <;> simp [h1]

theorem pyMaxGo_le {α : Type} (f : α → Nat) (acc : α) (l : List α) :
    f acc ≤ f (pyMaxGo f acc l) ∧ ∀ y ∈ l, f y ≤ f (pyMaxGo f acc l) := by
  induction l generalizing acc with
  | nil => simp [pyMaxGo]
  | cons x t ih =>
    simp only [pyMaxGo]
    by_cases h : f acc < f x
    · rw [if_pos h]
      obtain ⟨h1, h2⟩ := ih x
      refine ⟨le_trans (le_of_lt h) h1, ?_⟩
      intro y hy
      rcases List.mem_cons.mp hy with hy1 | hy1
      · exact hy1 ▸ h1
      · exact h2 y hy1
    · rw [if_neg h]
      obtain ⟨h1, h2⟩ := ih acc
      refine ⟨h1, ?_⟩
      intro y hy
      rcases List.mem_cons.mp hy with hy1 | hy1
      · exact hy1 ▸ le_trans (Nat.le_of_not_lt h) h1
      · exact h2 y hy1

theorem pyMax?_eq_none {α : Type} (f : α → Nat) (l : List α) :
    pyMax? f l = none ↔ l = [] := by
  cases l <;> simp [pyMax?]

theorem pyMax?_spec {α : Type} (f : α → Nat) {l : List α} {r : α}
    (h : pyMax? f l = some r) : r ∈ l ∧ ∀ y ∈ l, f y ≤ f r := by
  cases l with
  | nil => simp [pyMax?] at h
  | cons x t =>
    simp only [pyMax?, Option.some.injEq] at h
    subst h
    refine ⟨?_, ?_⟩
    · rcases pyMaxGo_mem f x t with h1 | h1
      · simp [h1]
      · exact List.mem_cons_of_mem _ h1
    · intro y hy
      obtain ⟨h1, h2⟩ := pyMaxGo_le f x t
      rcases List.mem_cons.mp hy with hy1 | hy1
      · exact hy1 ▸ h1
      · exact h2 y hy1

/-! ## Lemmas about SessionManager operations -/

theorem activeCountL_pos {l : List (String × RealtimeSession)} {sid : String}
    {s : RealtimeSession} (h : lookupKey l sid = some s)
    (ha : s.is_active = true) : 1 ≤ activeCountL l := by
  have hm : (sid, s) ∈ l := lookupKey_mem h
  have : (sid, s) ∈ l.filter (fun p => p.2.is_active) :=
    List.mem_filter.mpr ⟨hm, by simp [ha]⟩
  have := List.length_pos.mpr (List.ne_nil_of_mem this)
  simpa [activeCountL] using this

theorem activeCountL_setKey_inactive {l : List (String × RealtimeSession)}
    {sid : String} {s s1 : RealtimeSession} (hnd : (l.map Prod.fst).Nodup)
    (h : lookupKey l sid = some s) (ha : s.is_active = true)
    (h1 : s1.is_active = false) :
    activeCountL (setKey l sid s1) + 1 = activeCountL l := by
  induction l with
  | nil => simp [lookupKey] at h
  | cons p t ih =>
    obtain ⟨k, v⟩ := p
    simp only [List.map_cons, List.nodup_cons] at hnd
    by_cases hk : k = sid
    · subst hk
      simp [lookupKey] at h
      subst h
      have ht : lookupKey t k = none := by
        rw [lookupKey_eq_none]
        intro q hq hqk
        exact hnd.1 (List.mem_map.mpr ⟨q, hq, hqk⟩)
      simp [setKey, setKey_of_lookup_none ht, activeCountL, List.filter_cons,
        ha, h1]
    · simp only [lookupKey, hk, if_false] at h
      have := ih hnd.2 h
      simp only [setKey, hk, if_false, activeCountL, List.filter_cons] at this ⊢
      by_cases hv : v.is_active <;> simp [hv] <;> omega

theorem deactivate_lookup_ne (m : SessionManager) (sid r k : String)
    (h : k ≠ sid) :
    lookupKey (m.deactivate_session sid r).sessions k =
      lookupKey m.sessions k := by
  unfold SessionManager.deactivate_session
  cases hl : lookupKey m.sessions sid with
  | none => rfl
  | some s => exact lookupKey_setKey_ne m.sessions (Ne.symm h) _

theorem deactivate_config (m : SessionManager) (sid r : String) :
    (m.deactivate_session sid r).config = m.config := by
  unfold SessionManager.deactivate_session
  cases hl : lookupKey m.sessions sid <;> rfl

theorem remove_lookup_ne (m : SessionManager) (sid k : String) (h : k ≠ sid) :
    lookupKey (m.remove_session sid).sessions k = lookupKey m.sessions k := by
  unfold SessionManager.remove_session
  cases hl : lookupKey m.sessions sid with
  | none => rfl
  | some s =>
    by_cases ha : s.is_active <;>
      simp [ha, lookupKey_dropKey_ne _ (Ne.symm h), deactivate_lookup_ne _ _ _ _ h]

theorem remove_lookup_self (m : SessionManager) (sid : String) :
    lookupKey (m.remove_session sid).sessions sid = none := by
  unfold SessionManager.remove_session
  cases hl : lookupKey m.sessions sid with
  | none => exact hl
  | some s =>
    by_cases ha : s.is_active <;> simp [ha, lookupKey_dropKey_self]

theorem cleanupStep_lookup_none (m : SessionManager) (sid k : String)
    (h : lookupKey m.sessions k = none) :
    lookupKey ((m.deactivate_session sid "timeout").remove_session sid).sessions
      k = none := by
  by_cases hk : k = sid
  · subst hk
    exact remove_lookup_self _ _
  · rw [remove_lookup_ne _ _ _ hk, deactivate_lookup_ne _ _ _ _ hk]
    exact h

theorem cleanupFold_lookup_not_mem (L : List String) (m : SessionManager)
    (k : String) (h : k ∉ L) :
    lookupKey (L.foldl
      (fun acc sid => (acc.deactivate_session sid "timeout").remove_session sid)
      m).sessions k = lookupKey m.sessions k := by
  induction L generalizing m with
  | nil => rfl
  | cons sid t ih =>
    simp only [List.mem_cons, not_or] at h
    rw [List.foldl_cons, ih _ h.2, remove_lookup_ne _ _ _ h.1,
      deactivate_lookup_ne _ _ _ _ h.1]

theorem cleanupFold_lookup_none (L : List String) (m : SessionManager)
    (k : String) (h : lookupKey m.sessions k = none) :
    lookupKey (L.foldl
      (fun acc sid => (acc.deactivate_session sid "timeout").remove_session sid)
      m).sessions k = none := by
  induction L generalizing m with
  | nil => exact h
  | cons sid t ih =>
    rw [List.foldl_cons]
    exact ih _ (cleanupStep_lookup_none m sid k h)

theorem cleanupFold_lookup_mem (L : List String) (m : SessionManager)
    (k : String) (h : k ∈ L) :
    lookupKey (L.foldl
      (fun acc sid => (acc.deactivate_session sid "timeout").remove_session sid)
      m).sessions k = none := by
  induction L generalizing m with
  | nil => simp at h
  | cons sid t ih =>
    rw [List.foldl_cons]
    by_cases hk : k = sid
    · subst hk
      exact cleanupFold_lookup_none t _ k (remove_lookup_self _ _)
    · exact ih _ ((List.mem_cons.mp h).resolve_left hk)

theorem matchingSessions_eq_nil {m : SessionManager} {fid : String}
    (h : ∀ p ∈ m.sessions, p.2.flask_session_id ≠ fid) :
    m.matchingSessions fid = [] := by
  unfold SessionManager.matchingSessions
  rw [List.filterMap_eq_nil_iff]
  intro p hp
  simp [h p hp]

theorem mem_matchingSessions {m : SessionManager} {fid : String}
    {s : RealtimeSession} :
    s ∈ m.matchingSessions fid ↔
      ((∃ k, (k, s) ∈ m.sessions) ∧ s.flask_session_id = fid) := by
  unfold SessionManager.matchingSessions
  rw [List.mem_filterMap]
  constructor
  · rintro ⟨p, hp, hf⟩
    by_cases hc : p.2.flask_session_id = fid
    · rw [if_pos hc] at hf
      obtain rfl := Option.some.inj hf
      exact ⟨⟨p.1, hp⟩, hc⟩
    · rw [if_neg hc] at hf
      exact absurd hf (by simp)
  · rintro ⟨⟨k, hk⟩, hf⟩
    exact ⟨(k, s), hk, by simp [hf]⟩

/-! ## Characterizations of the SessionManager operations by regime -/

theorem create_session_reuse_eq {m : SessionManager} {fid : String}
    {existing : RealtimeSession}
    (hm : pyMax? (fun s => s.created_at) (m.matchingSessions fid) = some existing)
    (now : Nat) (user_ip fresh_id : String) (clientOk audioOk : Bool) :
    m.create_session now user_ip fid fresh_id clientOk audioOk =
      (m, some existing) := by
  unfold SessionManager.create_session
  rw [hm]

theorem create_session_rate_eq {m : SessionManager} {fid user_ip : String}
    (hnil : m.matchingSessions fid = [])
    (h1 : m.config.rate_limit_per_ip ≤ getCount m.ip_session_count user_ip)
    (now : Nat) (fresh_id : String) (clientOk audioOk : Bool) :
    m.create_session now user_ip fid fresh_id clientOk audioOk =
      ({ m with ip_session_count := touchKey m.ip_session_count user_ip },
        none) := by
  unfold SessionManager.create_session
  rw [hnil]
  simp [pyMax?, h1]

theorem create_session_global_eq {m : SessionManager} {fid user_ip : String}
    (hnil : m.matchingSessions fid = [])
    (h1 : ¬ m.config.rate_limit_per_ip ≤ getCount m.ip_session_count user_ip)
    (h2 : m.config.max_concurrent_sessions ≤ m.activeCount)
    (now : Nat) (fresh_id : String) (clientOk audioOk : Bool) :
    m.create_session now user_ip fid fresh_id clientOk audioOk =
      ({ m with ip_session_count := touchKey m.ip_session_count user_ip },
        none) := by
  unfold SessionManager.create_session
  rw [hnil]
  simp [pyMax?, h1, h2]

theorem create_session_ok_eq {m : SessionManager} {fid user_ip : String}
    (hnil : m.matchingSessions fid = [])
    (h1 : ¬ m.config.rate_limit_per_ip ≤ getCount m.ip_session_count user_ip)
    (h2 : ¬ m.config.max_concurrent_sessions ≤ m.activeCount)
    (now : Nat) (fresh_id : String) (clientOk audioOk : Bool) :
    m.create_session now user_ip fid fresh_id clientOk audioOk =
      ({ m with
          sessions := m.sessions ++
            [(fresh_id,
              RealtimeSession.mk0 fresh_id user_ip fid now clientOk audioOk)]
          ip_session_count :=
            setKey (touchKey m.ip_session_count user_ip) user_ip
              (getCount m.ip_session_count user_ip + 1) },
        some (RealtimeSession.mk0 fresh_id user_ip fid now clientOk audioOk)) := by
  unfold SessionManager.create_session
  rw [hnil]
  simp [pyMax?, h1, h2]

theorem get_session_eq {m : SessionManager} {sid : String}
    {s : RealtimeSession} (h : lookupKey m.sessions sid = some s) (now : Nat) :
    m.get_session now sid =
      ({ m with sessions := setKey m.sessions sid { s with last_activity := now } },
        some { s with last_activity := now }) := by
  unfold SessionManager.get_session
  rw [h]

theorem get_session_none_eq {m : SessionManager} {sid : String}
    (h : lookupKey m.sessions sid = none) (now : Nat) :
    m.get_session now sid = (m, none) := by
  unfold SessionManager.get_session
  rw [h]

theorem deactivate_eq_of_lookup {m : SessionManager} {sid : String}
    {s : RealtimeSession} (h : lookupKey m.sessions sid = some s) (r : String) :
    m.deactivate_session sid r =
      { m with
          sessions := setKey m.sessions sid
            { s with
                clientConnected := if s.hasClient then false else s.clientConnected
                is_active := false }
          ip_session_count :=
            if (lookupKey m.ip_session_count s.user_ip).isSome then
              setKey m.ip_session_count s.user_ip
                (getCount m.ip_session_count s.user_ip - 1)
            else m.ip_session_count } := by
  unfold SessionManager.deactivate_session
  rw [h]

theorem deactivate_none_eq {m : SessionManager} {sid : String}
    (h : lookupKey m.sessions sid = none) (r : String) :
    m.deactivate_session sid r = m := by
  unfold SessionManager.deactivate_session
  rw [h]

theorem mem_setKey_or {α : Type} {l : List (String × α)} {key : String}
    {v : α} {p : String × α} (h : p ∈ setKey l key v) : p ∈ l ∨ p.2 = v := by
  induction l with
  | nil => simp [setKey] at h
  | cons q t ih =>
    obtain ⟨k, w⟩ := q
    by_cases hk : k = key
    · rw [setKey, if_pos hk] at h
      rcases List.mem_cons.mp h with h1 | h1
      · right; rw [h1]
      · rcases ih h1 with h2 | h2
        · exact Or.inl (List.mem_cons_of_mem _ h2)
        · exact Or.inr h2
    · rw [setKey, if_neg hk] at h
      rcases List.mem_cons.mp h with h1 | h1
      · exact Or.inl (List.mem_cons.mpr (Or.inl h1))
      · rcases ih h1 with h2 | h2
        · exact Or.inl (List.mem_cons_of_mem _ h2)
        · exact Or.inr h2

theorem RealtimeSession.update_eq_self (s : RealtimeSession)
    (h1 : s.is_active = false)
    (h2 : (if s.hasClient then false else s.clientConnected) =
      s.clientConnected) :
    { s with
        clientConnected := if s.hasClient then false else s.clientConnected
        is_active := false } = s := by
  rw [h2, ← h1]

/-- Shared sweep lemma: a session whose last_activity is at or past the cutoff
survives a sweep completely untouched. -/
theorem cleanup_keeps (m : SessionManager) (now : Nat)
    (hnd : (m.sessions.map Prod.fst).Nodup) {sid : String}
    {s : RealtimeSession} (h : lookupKey m.sessions sid = some s)
    (hfresh : ¬ s.last_activity < now - m.config.session_timeout_seconds) :
    lookupKey (m.cleanup_expired_sessions now).sessions sid = some s := by
  have hnot : sid ∉ m.sessions.filterMap
      (fun p => if p.2.last_activity < now - m.config.session_timeout_seconds
        then some p.1 else none) := by
    intro hmem
    obtain ⟨p, hp, hsome⟩ := List.mem_filterMap.mp hmem
    by_cases hc : p.2.last_activity < now - m.config.session_timeout_seconds
    · rw [if_pos hc] at hsome
      obtain rfl := Option.some.inj hsome
      have hps : p.2 = s :=
        nodup_value_unique hnd (by simpa using hp) (lookupKey_mem h)
      exact hfresh (hps ▸ hc)
    · rw [if_neg hc] at hsome
      exact absurd hsome (by simp)
  simp only [SessionManager.cleanup_expired_sessions]
  rw [cleanupFold_lookup_not_mem _ _ _ hnot]
  exact h

/-- Shared sweep lemma: a session whose last_activity predates the cutoff is
erased from the registry by the sweep. -/
theorem cleanup_drops (m : SessionManager) (now : Nat) {sid : String}
    {s : RealtimeSession} (h : lookupKey m.sessions sid = some s)
    (hexp : s.last_activity < now - m.config.session_timeout_seconds) :
    lookupKey (m.cleanup_expired_sessions now).sessions sid = none := by
  have hmem : sid ∈ m.sessions.filterMap
      (fun p => if p.2.last_activity < now - m.config.session_timeout_seconds
        then some p.1 else none) :=
    List.mem_filterMap.mpr ⟨(sid, s), lookupKey_mem h, by simp [hexp]⟩
  simp only [SessionManager.cleanup_expired_sessions]
  exact cleanupFold_lookup_mem _ _ _ hmem

/-! ## Claim theorems -/

/-- C1: whenever any session with the given flask_session_id already exists in
the registry (active or not), create_session returns the most recently created
such session and leaves the manager state (registry and per-IP counters)
unchanged; and in general a create_session call never raises the number of
registered sessions for a key above one, so along any sequence of calls at most
one session is ever registered per client correlation key until removed. -/
theorem create_session_idempotent_reuse (m : SessionManager) (now : Nat)
    (user_ip fid fresh_id : String) (clientOk audioOk : Bool) :
    (m.matchingSessions fid ≠ [] →
      (m.create_session now user_ip fid fresh_id clientOk audioOk).1 = m ∧
      ∃ r, (m.create_session now user_ip fid fresh_id clientOk audioOk).2 =
          some r ∧
        r ∈ m.matchingSessions fid ∧
        ∀ x ∈ m.matchingSessions fid, x.created_at ≤ r.created_at) ∧
    ((m.create_session now user_ip fid fresh_id clientOk
        audioOk).1.matchingSessions fid).length ≤
      max 1 (m.matchingSessions fid).length := by
  cases hm : pyMax? (fun s => s.created_at) (m.matchingSessions fid) with
  | some existing =>
    rw [create_session_reuse_eq hm]
    obtain ⟨hmem, hmax⟩ := pyMax?_spec _ hm
    exact ⟨fun _ => ⟨rfl, existing, rfl, hmem, hmax⟩, le_max_right _ _⟩
  | none =>
    have hnil : m.matchingSessions fid = [] := (pyMax?_eq_none _ _).mp hm
    refine ⟨fun hne => absurd hnil hne, ?_⟩
    by_cases h1 : m.config.rate_limit_per_ip ≤ getCount m.ip_session_count user_ip
    · rw [create_session_rate_eq hnil h1]
      exact le_max_right _ _
    · by_cases h2 : m.config.max_concurrent_sessions ≤ m.activeCount
      · rw [create_session_global_eq hnil h1 h2]
        exact le_max_right _ _
      · rw [create_session_ok_eq hnil h1 h2]
        show ((m.sessions ++
          [(fresh_id,
            RealtimeSession.mk0 fresh_id user_ip fid now clientOk
              audioOk)]).filterMap _).length ≤ _
        rw [List.filterMap_append]
        simp only [SessionManager.matchingSessions] at hnil
        rw [hnil]
        simp [RealtimeSession.mk0]

/-- C1 witness: on a concrete manager already holding a session for keyA,
create_session with keyA changes nothing and returns that session. -/
theorem create_session_idempotent_reuse_witness :
    (mgr1.create_session 20 "1.2.3.4" "keyA" "rts_b" true true).1 = mgr1 ∧
    ∃ r, (mgr1.create_session 20 "1.2.3.4" "keyA" "rts_b" true true).2 =
        some r ∧
      r ∈ mgr1.matchingSessions "keyA" ∧
      ∀ x ∈ mgr1.matchingSessions "keyA", x.created_at ≤ r.created_at :=
  (create_session_idempotent_reuse mgr1 20 "1.2.3.4" "keyA" "rts_b" true
    true).1 (by decide)

/-- C5: when a previously unseen client key arrives from an IP whose session
count already equals the per-IP limit, create_session returns None, creates
nothing (the registry is unchanged), and every per-IP counter value stays as it
was. -/
theorem create_session_per_ip_limit (m : SessionManager) (now : Nat)
    (user_ip fid fresh_id : String) (clientOk audioOk : Bool)
    (hno : ∀ p ∈ m.sessions, p.2.flask_session_id ≠ fid)
    (hip : getCount m.ip_session_count user_ip = m.config.rate_limit_per_ip) :
    (m.create_session now user_ip fid fresh_id clientOk audioOk).2 = none ∧
    (m.create_session now user_ip fid fresh_id clientOk audioOk).1.sessions =
      m.sessions ∧
    ∀ x, getCount (m.create_session now user_ip fid fresh_id clientOk
      audioOk).1.ip_session_count x = getCount m.ip_session_count x := by
  have hnil := matchingSessions_eq_nil hno
  rw [create_session_rate_eq hnil (le_of_eq hip.symm)]
  exact ⟨rfl, rfl, fun x => getCount_touchKey _ _ _⟩

/-- C5 witness: with per-IP limit 1, after create_session("1.2.3.4", "keyA")
succeeds, create_session("1.2.3.4", "keyB") returns None and creates nothing. -/
theorem create_session_per_ip_limit_witness :
    (mgr2a.create_session 1 "1.2.3.4" "keyB" "rts_b2" true true).2 = none ∧
    (mgr2a.create_session 1 "1.2.3.4" "keyB" "rts_b2" true true).1.sessions =
      mgr2a.sessions :=
  ⟨(create_session_per_ip_limit mgr2a 1 "1.2.3.4" "keyB" "rts_b2" true true
      (by decide) (by decide)).1,
   (create_session_per_ip_limit mgr2a 1 "1.2.3.4" "keyB" "rts_b2" true true
      (by decide) (by decide)).2.1⟩

/-- C4: when the global active-session count equals max_concurrent_sessions,
create_session for a previously unseen client key returns None and registers
nothing; and once one active session has been deactivated, a create_session
for a new key whose IP is under the per-IP limit succeeds and registers the
new session. -/
theorem create_session_global_admission (m : SessionManager) (now : Nat)
    (user_ip fid fresh_id : String) (clientOk audioOk : Bool)
    (hno : ∀ p ∈ m.sessions, p.2.flask_session_id ≠ fid) :
    (m.activeCount = m.config.max_concurrent_sessions →
      (m.create_session now user_ip fid fresh_id clientOk audioOk).2 = none ∧
      (m.create_session now user_ip fid fresh_id clientOk audioOk).1.sessions =
        m.sessions) ∧
    (∀ did ds r, m.WF →
      lookupKey m.sessions did = some ds → ds.is_active = true →
      m.activeCount = m.config.max_concurrent_sessions →
      getCount (m.deactivate_session did r).ip_session_count user_ip <
        m.config.rate_limit_per_ip →
      ((m.deactivate_session did r).create_session now user_ip fid fresh_id
          clientOk audioOk).2 =
        some (RealtimeSession.mk0 fresh_id user_ip fid now clientOk audioOk) ∧
      ((m.deactivate_session did r).create_session now user_ip fid fresh_id
          clientOk audioOk).1.sessions =
        (m.deactivate_session did r).sessions ++
          [(fresh_id,
            RealtimeSession.mk0 fresh_id user_ip fid now clientOk audioOk)]) := by
  have hnil := matchingSessions_eq_nil hno
  constructor
  · intro hact
    by_cases h1 : m.config.rate_limit_per_ip ≤ getCount m.ip_session_count user_ip
    · rw [create_session_rate_eq hnil h1]
      exact ⟨rfl, rfl⟩
    · rw [create_session_global_eq hnil h1 (le_of_eq hact.symm)]
      exact ⟨rfl, rfl⟩
  · intro did ds r hwf hlook hact2 hfull hipo
    have hm1 := deactivate_eq_of_lookup hlook r
    have hms : (m.deactivate_session did r).sessions =
        setKey m.sessions did
          { ds with
              clientConnected := if ds.hasClient then false else ds.clientConnected
              is_active := false } := by
      rw [hm1]
    have hmc : (m.deactivate_session did r).config = m.config :=
      deactivate_config m did r
    have hno1 : ∀ p ∈ (m.deactivate_session did r).sessions,
        p.2.flask_session_id ≠ fid := by
      rw [hms]
      intro p hp
      rcases mem_setKey_or hp with hin | hval
      · exact hno p hin
      · rw [hval]
        exact hno (did, ds) (lookupKey_mem hlook)
    have hnil1 := matchingSessions_eq_nil hno1
    have hrate1 : ¬ (m.deactivate_session did r).config.rate_limit_per_ip ≤
        getCount (m.deactivate_session did r).ip_session_count user_ip := by
      rw [hmc]
      exact not_le.mpr hipo
    have hglob1 : ¬ (m.deactivate_session did r).config.max_concurrent_sessions ≤
        (m.deactivate_session did r).activeCount := by
      rw [hmc]
      have h5 : (m.deactivate_session did r).activeCount + 1 = m.activeCount := by
        show activeCountL (m.deactivate_session did r).sessions + 1 =
          activeCountL m.sessions
        rw [hms]
        exact activeCountL_setKey_inactive hwf.1 hlook hact2 rfl
      have h6 := activeCountL_pos hlook hact2
      omega
    rw [create_session_ok_eq hnil1 hrate1 hglob1]
    exact ⟨rfl, rfl⟩

/-- C4 witness: a concrete manager at its global limit of 1 active session
refuses a new key; after deactivating the active session, the same call
succeeds and registers the new session. -/
theorem create_session_global_admission_witness :
    ((mgrG.create_session 5 "6.6.6.6" "keyH" "rts_h" true true).2 = none ∧
      (mgrG.create_session 5 "6.6.6.6" "keyH" "rts_h" true true).1.sessions =
        mgrG.sessions) ∧
    ((mgrG.deactivate_session "rts_g" "manual").create_session 5 "6.6.6.6"
        "keyH" "rts_h" true true).2 =
      some (RealtimeSession.mk0 "rts_h" "6.6.6.6" "keyH" 5 true true) :=
  ⟨(create_session_global_admission mgrG 5 "6.6.6.6" "keyH" "rts_h" true true
      (by decide)).1 (by decide),
   ((create_session_global_admission mgrG 5 "6.6.6.6" "keyH" "rts_h" true true
      (by decide)).2 "rts_g" sessG "manual" (by decide) (by decide) (by decide)
      (by decide) (by decide)).1⟩

/-- C6: on a sweep tick, every registered session whose last_activity is
strictly older than now minus the configured timeout is removed from the
registry (having been deactivated with reason timeout first), and every
session whose last_activity is at the cutoff or more recent survives with all
its fields unchanged. -/
theorem cleanup_expired_sweep (m : SessionManager) (now : Nat) (hwf : m.WF) :
    (∀ sid s, lookupKey m.sessions sid = some s →
      s.last_activity < now - m.config.session_timeout_seconds →
      lookupKey (m.cleanup_expired_sessions now).sessions sid = none) ∧
    (∀ sid s, lookupKey m.sessions sid = some s →
      ¬ s.last_activity < now - m.config.session_timeout_seconds →
      lookupKey (m.cleanup_expired_sessions now).sessions sid = some s) :=
  ⟨fun _ _ h hexp => cleanup_drops m now h hexp,
   fun _ _ h hfresh => cleanup_keeps m now hwf.1 h hfresh⟩

/-- C6 witness: with timeout 100 at time 1000, the session idle since 0 is
removed and the session last active at 950 is untouched. -/
theorem cleanup_expired_sweep_witness :
    lookupKey (mgr6.cleanup_expired_sessions 1000).sessions "rts_old" = none ∧
    lookupKey (mgr6.cleanup_expired_sessions 1000).sessions "rts_new" =
      some sessNew :=
  ⟨(cleanup_expired_sweep mgr6 1000 (by decide)).1 "rts_old" sessOld
      (by decide) (by decide),
   (cleanup_expired_sweep mgr6 1000 (by decide)).2 "rts_new" sessNew
      (by decide) (by decide)⟩

/-- Helper for the amended idempotence: deactivate_session is the identity on
a registered session that is already inactive, has no connected client, and
whose IP counter already reads zero. -/
theorem deactivate_session_noop_cond (m : SessionManager) (sid r : String)
    (s : RealtimeSession)
    (hwf_s : (m.sessions.map Prod.fst).Nodup)
    (hwf_c : (m.ip_session_count.map Prod.fst).Nodup)
    (h : lookupKey m.sessions sid = some s)
    (h1 : s.is_active = false)
    (h2 : s.hasClient = true → s.clientConnected = false)
    (hc : getCount m.ip_session_count s.user_ip = 0) :
    m.deactivate_session sid r = m := by
  have hcc : (if s.hasClient then false else s.clientConnected) =
      s.clientConnected := by
    cases hcl : s.hasClient
    · simp
    · simp [h2 hcl]
  have hs1 : ({ s with
      clientConnected := if s.hasClient then false else s.clientConnected
      is_active := false } : RealtimeSession) = s :=
    RealtimeSession.update_eq_self s h1 hcc
  rw [deactivate_eq_of_lookup h r, hs1, setKey_self_of_lookup hwf_s h]
  by_cases hip : (lookupKey m.ip_session_count s.user_ip).isSome
  · have hv : lookupKey m.ip_session_count s.user_ip = some 0 := by
      cases hl : lookupKey m.ip_session_count s.user_ip with
      | none => rw [hl] at hip; simp at hip
      | some v =>
        have hv0 : v = 0 := by
          unfold getCount at hc
          rw [hl] at hc
          simpa using hc
        rw [hv0]
    have hz : getCount m.ip_session_count s.user_ip - 1 = 0 := by
      rw [hc]
    rw [if_pos hip, hz, setKey_self_of_lookup hwf_c hv]
  · rw [if_neg hip]

/-- C2 counterexample: deactivate_session on a registered but already-inactive
session is not a no-op.  On a concrete manager holding one never-activated
session (is_active = false) with per-IP count 1, deactivate_session drops the
per-IP counter from 1 to 0. -/
theorem deactivate_session_not_noop :
    (lookupKey mgr3.sessions "rts_c").map RealtimeSession.is_active =
      some false ∧
    getCount mgr3.ip_session_count "9.9.9.9" = 1 ∧
    getCount (mgr3.deactivate_session "rts_c" "manual").ip_session_count
      "9.9.9.9" = 0 := by decide

/-- Helper: deactivate_session on a registered session always drops the per-IP
counter of that session by one, floored at zero (Nat subtraction is the
floored decrement; when the counter key is absent the defaultdict read gives 0
and the counter stays at 0), with no regard to is_active. -/
theorem deactivate_getCount (m : SessionManager) (sid r : String)
    (s : RealtimeSession) (h : lookupKey m.sessions sid = some s) :
    getCount (m.deactivate_session sid r).ip_session_count s.user_ip =
      getCount m.ip_session_count s.user_ip - 1 := by
  rw [deactivate_eq_of_lookup h r]
  by_cases hip : (lookupKey m.ip_session_count s.user_ip).isSome
  · show getCount (if _ then setKey m.ip_session_count s.user_ip _ else
      m.ip_session_count) s.user_ip = _
    rw [if_pos hip]
    unfold getCount
    rw [lookupKey_setKey_self hip]
    rfl
  · show getCount (if _ then setKey m.ip_session_count s.user_ip _ else
      m.ip_session_count) s.user_ip = _
    rw [if_neg hip]
    unfold getCount
    cases hl : lookupKey m.ip_session_count s.user_ip with
    | none => rfl
    | some v => rw [hl] at hip; simp at hip

/-- C2 amended: deactivate_session on an absent session id is a no-op; on a
registered session it disconnects the client, clears is_active and decrements
the per-IP counter (floored at zero) regardless of whether the session was
already inactive; consequently an immediately repeated deactivate_session is a
no-op if and only if the per-IP counter of the session has already reached
zero after the first call. -/
theorem deactivate_session_idempotence_amended (m : SessionManager)
    (sid r r2 : String) :
    (lookupKey m.sessions sid = none → m.deactivate_session sid r = m) ∧
    (∀ s, lookupKey m.sessions sid = some s →
      lookupKey (m.deactivate_session sid r).sessions sid =
        some { s with
          clientConnected := if s.hasClient then false else s.clientConnected
          is_active := false } ∧
      getCount (m.deactivate_session sid r).ip_session_count s.user_ip =
        getCount m.ip_session_count s.user_ip - 1) ∧
    (∀ s, m.WF → lookupKey m.sessions sid = some s →
      ((m.deactivate_session sid r).deactivate_session sid r2 =
          m.deactivate_session sid r ↔
        getCount (m.deactivate_session sid r).ip_session_count s.user_ip =
          0)) := by
  refine ⟨fun h => deactivate_none_eq h r, ?_, ?_⟩
  · intro s h
    have hm1 := deactivate_eq_of_lookup h r
    refine ⟨?_, deactivate_getCount m sid r s h⟩
    rw [hm1]
    exact lookupKey_setKey_self (by simp [h]) _
  · intro s hwf h
    have hm1 := deactivate_eq_of_lookup h r
    have hs1 : lookupKey (m.deactivate_session sid r).sessions sid =
        some { s with
          clientConnected := if s.hasClient then false else s.clientConnected
          is_active := false } := by
      rw [hm1]
      exact lookupKey_setKey_self (by simp [h]) _
    constructor
    · intro heq
      have hdrop := deactivate_getCount (m.deactivate_session sid r) sid r2
        { s with
          clientConnected := if s.hasClient then false else s.clientConnected
          is_active := false } hs1
      have hu : ({ s with
          clientConnected := if s.hasClient then false else s.clientConnected
          is_active := false } : RealtimeSession).user_ip = s.user_ip := rfl
      rw [heq, hu] at hdrop
      omega
    · intro hc0
      have hnd1 : ((m.deactivate_session sid r).sessions.map Prod.fst).Nodup := by
        rw [hm1]
        show ((setKey m.sessions sid _).map Prod.fst).Nodup
        rw [keys_setKey]
        exact hwf.1
      have hndc1 : ((m.deactivate_session sid r).ip_session_count.map
          Prod.fst).Nodup := by
        rw [hm1]
        by_cases hip : (lookupKey m.ip_session_count s.user_ip).isSome
        · show ((if _ then setKey m.ip_session_count s.user_ip _ else
            m.ip_session_count).map Prod.fst).Nodup
          rw [if_pos hip, keys_setKey]
          exact hwf.2
        · show ((if _ then setKey m.ip_session_count s.user_ip _ else
            m.ip_session_count).map Prod.fst).Nodup
          rw [if_neg hip]
          exact hwf.2
      exact deactivate_session_noop_cond (m.deactivate_session sid r) sid r2
        { s with
          clientConnected := if s.hasClient then false else s.clientConnected
          is_active := false }
        hnd1 hndc1 hs1 rfl
        (by
          intro hh
          cases hcl : s.hasClient
          · simp [hcl] at hh
          · simp [hcl])
        hc0

/-- C2 witness: on the concrete manager of the counterexample, one
deactivate_session of the inactive session still drops its per-IP counter by
one; that counter now reads zero, so by the equivalence a second
deactivate_session of the same id changes nothing further. -/
theorem deactivate_session_idempotence_amended_witness :
    getCount (mgr3.deactivate_session "rts_c" "manual").ip_session_count
        sessC.user_ip =
      getCount mgr3.ip_session_count sessC.user_ip - 1 ∧
    (mgr3.deactivate_session "rts_c" "manual").deactivate_session "rts_c"
      "manual" = mgr3.deactivate_session "rts_c" "manual" :=
  ⟨((deactivate_session_idempotence_amended mgr3 "rts_c" "manual"
      "manual").2.1 sessC (by decide)).2,
   ((deactivate_session_idempotence_amended mgr3 "rts_c" "manual"
      "manual").2.2 sessC (by decide) (by decide)).mpr (by decide)⟩

/-- C10: a successful get_session stamps only that session's last_activity
with the current time — the returned session differs from the stored one in no
other field, every other registry entry, every per-IP counter and the config
are untouched — and consequently the session survives any sweep whose cutoff
does not pass the new stamp; an activation attempt on a session without a
client fails yet still leaves that stamp behind. -/
theorem get_session_touches_only_last_activity (m : SessionManager)
    (now : Nat) (sid : String) (s : RealtimeSession) (hwf : m.WF)
    (h : lookupKey m.sessions sid = some s) :
    (m.get_session now sid).2 = some { s with last_activity := now } ∧
    lookupKey (m.get_session now sid).1.sessions sid =
      some { s with last_activity := now } ∧
    (∀ k, k ≠ sid → lookupKey (m.get_session now sid).1.sessions k =
      lookupKey m.sessions k) ∧
    (m.get_session now sid).1.ip_session_count = m.ip_session_count ∧
    (m.get_session now sid).1.config = m.config ∧
    (∀ t, t - m.config.session_timeout_seconds ≤ now →
      lookupKey ((m.get_session now sid).1.cleanup_expired_sessions t).sessions
        sid = some { s with last_activity := now }) ∧
    (∀ co, s.hasClient = false →
      m.activate_session now sid co = ((m.get_session now sid).1, false)) := by
  rw [get_session_eq h now]
  refine ⟨rfl, ?_, ?_, rfl, rfl, ?_, ?_⟩
  · exact lookupKey_setKey_self (by simp [h]) _
  · intro k hk
    exact lookupKey_setKey_ne _ (Ne.symm hk) _
  · intro t ht
    apply cleanup_keeps
    · show ((setKey m.sessions sid _).map Prod.fst).Nodup
      rw [keys_setKey]
      exact hwf.1
    · exact lookupKey_setKey_self (by simp [h]) _
    · exact not_lt.mpr ht
  · intro co hcl
    unfold SessionManager.activate_session
    rw [get_session_eq h now]
    simp [hcl]

/-- C10 witness: on a concrete manager whose one session lacks a client,
get_session returns it with last_activity restamped, and an activation
attempt fails while leaving that stamp. -/
theorem get_session_touches_only_last_activity_witness :
    (mgr4.get_session 50 "rts_d").2 = some { sessD with last_activity := 50 } ∧
    mgr4.activate_session 50 "rts_d" (some true) =
      ((mgr4.get_session 50 "rts_d").1, false) :=
  ⟨(get_session_touches_only_last_activity mgr4 50 "rts_d" sessD (by decide)
      (by decide)).1,
   (get_session_touches_only_last_activity mgr4 50 "rts_d" sessD (by decide)
      (by decide)).2.2.2.2.2.2 (some true) (by decide)⟩

/-- C7 counterexample: the claimed iff fails on a reachable state.  After a
successful connect, an inbound response.created event, and a disconnect,
is_model_speaking is still true, yet interrupt() emits nothing (the state is
unchanged, in particular no response.cancel is pushed through the socket). -/
theorem interrupt_not_iff_speaking :
    clientD.is_model_speaking = true ∧ clientD.interrupt = clientD := by
  decide

/-- C7 amended: interrupt() attempts the cancel exactly when is_model_speaking
is set, and the response.cancel wire message is emitted exactly when
additionally the transport is open (connected WebSocketApp with a live
socket); in every other state interrupt() is a no-op — in particular it never
emits while no response is in progress. -/
theorem interrupt_amended (c : RealtimeClient) :
    c.interrupt =
      if c.is_model_speaking ∧ c.is_connected ∧ c.ws_app ∧ c.sock_connected
      then { c with sent := c.sent ++ ["response.cancel"] } else c := by
  unfold RealtimeClient.interrupt RealtimeClient.sendEvent
  by_cases h1 : c.is_model_speaking = true <;>
    by_cases h2 : c.is_connected = true <;>
    by_cases h3 : c.ws_app = true <;>
    by_cases h4 : c.sock_connected = true <;>
    simp [h1, h2, h3, h4]

/-- C8: an inbound message that fails JSON parsing is dropped without raising,
invoking no callback and leaving the whole client state (conversation_id,
current_item_id, is_model_speaking, even the trace queues) unchanged; a parsed
message whose type tag is unrecognized is only recorded on the incoming queue,
invoking no callback and not raising; and a malformed message in the middle of
a stream does not disturb the processing of the valid messages around it, in
wire order. -/
theorem on_message_malformed_unknown_safe (cb : Callbacks) :
    (∀ c t, RealtimeClient.onMessage cb c (RawMsg.malformed t) = some (c, [])) ∧
    (∀ c e, ¬ recognizedType e.etype →
      RealtimeClient.onMessage cb c (RawMsg.obj e) =
        some ({ c with incoming_queue := c.incoming_queue ++ [e] }, [])) ∧
    (∀ (c : RealtimeClient) pre post t,
      RealtimeClient.processMessages cb c (pre ++ RawMsg.malformed t :: post) =
        RealtimeClient.processMessages cb c (pre ++ post)) := by
  refine ⟨fun c t => rfl, ?_, ?_⟩
  · intro c e h
    unfold recognizedType at h
    push_neg at h
    obtain ⟨h1, h2, h3, h4, h5, h6, h7, h8, h9, h10, h11, h12, h13⟩ := h
    unfold RealtimeClient.onMessage RealtimeClient.dispatchEvent
    simp [h1, h2, h3, h4, h5, h6, h7, h8, h9, h10, h11, h12, h13]
  · intro c pre post t
    induction pre generalizing c with
    | nil =>
      simp only [List.nil_append]
      simp only [RealtimeClient.processMessages, RealtimeClient.onMessage]
      cases hp : RealtimeClient.processMessages cb c post with
      | none => rfl
      | some p =>
        obtain ⟨c2, l2⟩ := p
        simp
    | cons msg rest ih =>
      simp only [List.cons_append, RealtimeClient.processMessages]
      cases hm : RealtimeClient.onMessage cb c msg with
      | none => rfl
      | some p =>
        obtain ⟨c1, l1⟩ := p
        simp only [List.append_eq, ih]

/-- C8 witness: with every callback hook registered, a message with the
unrecognized type tag weird.type is queued but invokes no callback and does
not raise. -/
theorem on_message_malformed_unknown_safe_witness :
    RealtimeClient.onMessage cbAll clientA (RawMsg.obj unknownEvt) =
      some ({ clientA with
          incoming_queue := clientA.incoming_queue ++ [unknownEvt] }, []) :=
  (on_message_malformed_unknown_safe cbAll).2.1 clientA unknownEvt (by decide)

/-- C9 counterexample: the constructor applies no credential check at all.  A
credential lookup that returns a malformed key (no sk- pattern), or returns no
key, still yields a client instance rather than a configuration error. -/
theorem init_no_credential_check :
    RealtimeClient.init "rts_y" (Except.ok (some "not-a-key"))
        (Except.ok cfgR) =
      Except.ok (RealtimeClient.mk0 "rts_y" (some "not-a-key") cfgR) ∧
    RealtimeClient.init "rts_y2" (Except.ok none) (Except.ok cfgR) =
      Except.ok (RealtimeClient.mk0 "rts_y2" none cfgR) ∧
    keyTruthy none = false ∧
    startsWithSk "not-a-key" = false :=
  ⟨rfl, rfl, rfl, by decide⟩

/-- C9 amended: construction succeeds exactly when the credential lookup and
the config retrieval both return (it fails fast only by propagating their
errors, applying no format check); the cheap format check (truthy value with
the sk- pattern) is instead performed by connect(), which fails without
touching the transport when the stored credential is missing or malformed. -/
theorem init_connect_amended (sid : String)
    (keyRes : Except String (Option String))
    (cfgRes : Except String RealtimeConfig) (c : RealtimeClient)
    (openOk : Bool) :
    ((∃ cl, RealtimeClient.init sid keyRes cfgRes = Except.ok cl) ↔
      (∃ k, keyRes = Except.ok k) ∧ (∃ cf, cfgRes = Except.ok cf)) ∧
    (c.is_connected = false →
      (keyTruthy c.api_key = false ∨
        startsWithSk (c.api_key.getD "") = false) →
      c.connect openOk = (c, false)) := by
  constructor
  · cases keyRes with
    | error e => simp [RealtimeClient.init]
    | ok k =>
      cases cfgRes with
      | error e2 => simp [RealtimeClient.init]
      | ok cf => exact ⟨fun _ => ⟨⟨k, rfl⟩, ⟨cf, rfl⟩⟩,
          fun _ => ⟨RealtimeClient.mk0 sid k cf, rfl⟩⟩
  · intro hnc hbad
    unfold RealtimeClient.connect
    rw [if_neg (by simp [hnc])]
    rcases hbad with hb | hb
    · rw [if_pos (by simp [hb])]
    · by_cases hkt : keyTruthy c.api_key = true
      · rw [if_neg (by simp [hkt]), if_pos (by simp [hb])]
      · rw [if_pos (by simpa using hkt)]

/-- C9 witness: a client holding the empty-string credential is constructed,
and its connect() fails fast with the state unchanged. -/
theorem init_connect_amended_witness :
    RealtimeClient.connect clientBad true = (clientBad, false) :=
  (init_connect_amended "rts_z" (Except.ok (some "")) (Except.ok cfgR)
    clientBad true).2 rfl (Or.inl (by decide))
